import Mathlib

/-!
# Slack-Guest-Sentinel — verification of the spec against the source

Shallow embedding of the two core subsystems of the repository:

* the Stripe webhook idempotency claim manager and subscription reconciler
  (`src/unnamed/part_004`, the `/api/stripe/webhook` route), and
* the guest-inactivity audit engine
  (`src/services/audit.service.ts`, `src/lib/slack.ts`,
  `src/config/constants.ts`, `src/services/slack-event.service.ts`).

Database tables are modelled as association lists, timestamps as integers
(milliseconds or seconds since epoch, as in the source), Stripe / Slack
network interactions as explicit oracles or traces of fetch results.
-/

namespace Sentinel

/-! ## Stripe webhook idempotency claim manager (src/unnamed/part_004) -/

/-- Model of `StripeEventStatus` from part_004: `'processing' | 'processed' | 'failed'`. -/
inductive StripeEventStatus where
  | processing
  | processed
  | failed
deriving DecidableEq, Repr

/-- One row of the `stripe_events_history` table, as read by `claimStripeEvent`
(`status, attempts, updated_at`; `last_error` is carried for `markStripeEventFailed`).
`updatedAt` is milliseconds since epoch; `none` models SQL NULL. -/
structure StripeEventRow where
  status : StripeEventStatus
  attempts : Option Int
  updatedAt : Option Int
  lastError : Option String
deriving DecidableEq, Repr

/-- Model of `PROCESSING_STALE_MS = 10 * 60 * 1000` (part_004 line 31). -/
def PROCESSING_STALE_MS : Int := 10 * 60 * 1000

/-- Model of `EventClaimResult` from part_004. -/
inductive EventClaimResult where
  | claimed
  | already_processed
  | in_flight
deriving DecidableEq, Repr

/-- Model of `claimStripeEvent` (part_004 lines 46–117) as a pure transition on the
(unique) row for the event id.  `row = none` is the case where the INSERT with
`status='processing', attempts=1` succeeds; `row = some existing` is the
unique-constraint-violation path that reads the existing row.  `now` is
`Date.now()` in milliseconds.  A NULL `updated_at` is read as epoch 0, exactly
as `new Date(existing.updated_at).getTime()` defaulted by `?: 0` in the source;
the `Number.isFinite` guard cannot fail in this integer model. -/
def claimStripeEvent (now : Int) (row : Option StripeEventRow) :
    EventClaimResult × StripeEventRow :=
  match row with
  | none =>
      (.claimed, { status := .processing, attempts := some 1,
                   updatedAt := some now, lastError := none })
  | some existing =>
      if existing.status = .processed then
        (.already_processed, existing)
      else
        let updatedAtMs := existing.updatedAt.getD 0
        let staleProcessing : Prop :=
          existing.status = .processing ∧ now - updatedAtMs > PROCESSING_STALE_MS
        if existing.status = .failed ∨ staleProcessing then
          (.claimed, { status := .processing,
                       attempts := some (existing.attempts.getD 0 + 1),
                       updatedAt := some now, lastError := none })
        else
          (.in_flight, existing)

/-- Modelled from the spec's words (§4.5 and claim C1): the claim state machine
as the claim states it — `already_processed` for a processed row; reclaim
(reset to processing, attempt counter incremented by one) for a failed row or a
stale processing row; `in_flight` for a processing row updated within the
10-minute staleness window; fresh insert otherwise.  Written independently of
`claimStripeEvent` for the refinement proof `C1_claim_state_machine`. -/
def claimSpecC1 (now : Int) (row : Option StripeEventRow) :
    EventClaimResult × StripeEventRow :=
  match row with
  | none =>
      (.claimed, { status := .processing, attempts := some 1,
                   updatedAt := some now, lastError := none })
  | some r =>
      match r.status with
      | .processed => (.already_processed, r)
      | .failed =>
          (.claimed, { status := .processing,
                       attempts := some (r.attempts.getD 0 + 1),
                       updatedAt := some now, lastError := none })
      | .processing =>
          if now - r.updatedAt.getD 0 ≤ PROCESSING_STALE_MS then
            (.in_flight, r)
          else
            (.claimed, { status := .processing,
                         attempts := some (r.attempts.getD 0 + 1),
                         updatedAt := some now, lastError := none })

/-! ## Subscription reconciler (src/unnamed/part_004, POST handler) -/

/-- Model of `SubscriptionPlan` from database.types: `'free' | 'starter' | 'growth' | 'scale'`. -/
inductive SubscriptionPlan where
  | free
  | starter
  | growth
  | scale
deriving DecidableEq, Repr

/-- The three Stripe price-id environment variables consulted by
`mapPriceIdToPlan`. -/
structure StripeEnv where
  STRIPE_PRICE_STARTER : String
  STRIPE_PRICE_GROWTH : String
  STRIPE_PRICE_SCALE : String
deriving DecidableEq, Repr

/-- Model of `mapPriceIdToPlan` (part_004 lines 33–39).  `if (!priceId) return null`
also catches the empty string (JS falsiness), hence the explicit test. -/
def mapPriceIdToPlan (env : StripeEnv) (priceId : Option String) :
    Option SubscriptionPlan :=
  match priceId with
  | none => none
  | some p =>
      if p = "" then none
      else if p = env.STRIPE_PRICE_STARTER then some .starter
      else if p = env.STRIPE_PRICE_GROWTH then some .growth
      else if p = env.STRIPE_PRICE_SCALE then some .scale
      else none

/-- One row of the `subscriptions` table (unique key `workspace_id`). -/
structure SubscriptionRow where
  workspace_id : String
  stripe_customer_id : Option String
  stripe_subscription_id : Option String
  plan : SubscriptionPlan
  status : String
deriving DecidableEq, Repr

/-- Model of `upsert(..., { onConflict: 'workspace_id' })` on the `subscriptions`
table: replace the row with the same `workspace_id` if one exists, else
append. -/
def upsertSubscription (tbl : List SubscriptionRow) (row : SubscriptionRow) :
    List SubscriptionRow :=
  if tbl.any (fun r => r.workspace_id = row.workspace_id) then
    tbl.map (fun r => if r.workspace_id = row.workspace_id then row else r)
  else
    tbl ++ [row]

/-- The slice of a Stripe subscription object the route reads after
`stripe.subscriptions.retrieve`: `items.data[0]?.price.id` and `status`. -/
structure RetrievedSubscription where
  priceId : Option String
  status : String
deriving DecidableEq, Repr

/-- The Stripe API oracle: `stripe.subscriptions.retrieve` by id. -/
abbrev StripeApi := String → RetrievedSubscription

/-- Model of `Stripe.Checkout.Session` fields read by the checkout branch.
`subscription` / `customer` hold the `typeof === 'string'` normalisations
already applied by the route; `metadataPlan` is `session.metadata?.plan`. -/
structure CheckoutSession where
  id : String
  client_reference_id : Option String
  subscription : Option String
  customer : Option String
  metadataPlan : Option String
deriving DecidableEq, Repr

/-- Model of `VALID_PAID_PLANS.includes(rawPlan)` of `resolveCheckoutPlan`:
`['starter', 'growth', 'scale']`. -/
def parsePaidPlan : String → Option SubscriptionPlan
  | "starter" => some .starter
  | "growth" => some .growth
  | "scale" => some .scale
  | _ => none

/-- Model of `resolveCheckoutPlan` (part_004 lines 152–182).  Returns the resolved plan
together with the number of `stripe.subscriptions.retrieve` calls issued
(0 or 1), so the no-external-lookup property is expressible. -/
def resolveCheckoutPlan (api : StripeApi) (env : StripeEnv)
    (session : CheckoutSession) (subscriptionId : Option String) :
    SubscriptionPlan × Nat :=
  let rawPlan := session.metadataPlan.getD ("")
  match parsePaidPlan rawPlan with
  | some plan => (plan, 0)
  | none =>
      match subscriptionId with
      | some sid =>
          let subscription := api sid
          match mapPriceIdToPlan env subscription.priceId with
          | some planFromPrice => (planFromPrice, 1)
          | none => (.starter, 1)
      | none => (.starter, 0)

/-- Model of `Stripe.Subscription` fields read by the
`customer.subscription.updated/deleted` branch.  `customer` holds the
`typeof === 'string'` normalisation; `priceId` is `items.data[0]?.price.id`;
`metadataWorkspaceId` is `subscription.metadata?.workspaceId`. -/
structure StripeSubscription where
  id : String
  status : String
  priceId : Option String
  metadataWorkspaceId : Option String
  customer : Option String
deriving DecidableEq, Repr

/-- Model of `SUBSCRIPTION_STATUS.ACTIVE` / `.TRIALING` check of the subscription
branch (part_004 lines 273–275). -/
def isActiveEquivalent (status : String) : Prop :=
  status = "active" ∨ status = "trialing"

instance (status : String) : Decidable (isActiveEquivalent status) := by
  unfold isActiveEquivalent; infer_instance

/-- The `customer.subscription.updated` / `customer.subscription.deleted`
branch of `POST` (part_004 lines 270–340), as a function from the
`subscriptions` table to either an error (the thrown `Error`) or the updated
table.  The `break` paths leave the table unchanged. -/
def handleSubscriptionEvent (env : StripeEnv) (subs : List SubscriptionRow)
    (subscription : StripeSubscription) : Except String (List SubscriptionRow) :=
  let isActive := isActiveEquivalent subscription.status
  let planFromPrice := mapPriceIdToPlan env subscription.priceId
  if isActive ∧ planFromPrice = none then
    .error ("Unknown Stripe price ID for active subscription " ++ subscription.id)
  else
    -- `isActive ? (planFromPrice as SubscriptionPlan) : 'free'`; in the
    -- isActive case the guard above ensures planFromPrice is some, so the
    -- `getD` default is never reached.
    let planName : SubscriptionPlan := if isActive then planFromPrice.getD .free else .free
    let workspaceFromMetadata := subscription.metadataWorkspaceId
    let workspaceId : Option String :=
      match workspaceFromMetadata with
      | some w => some w
      | none =>
          match subscription.customer with
          | some customer =>
              (subs.find? (fun r => r.stripe_customer_id = some customer)).map
                (fun r => r.workspace_id)
          | none => none
    match workspaceId with
    | none => .ok subs
    | some w =>
        .ok (upsertSubscription subs
          { workspace_id := w,
            stripe_customer_id := subscription.customer,
            stripe_subscription_id := some subscription.id,
            plan := planName,
            status := subscription.status })

/-- The `checkout.session.completed` branch of `POST` (part_004 lines
222–268).  Returns the updated `subscriptions` table and the number of
`stripe.subscriptions.retrieve` calls issued. -/
def handleCheckoutEvent (api : StripeApi) (env : StripeEnv)
    (subs : List SubscriptionRow) (session : CheckoutSession) :
    Except String (List SubscriptionRow × Nat) :=
  let subscriptionId := session.subscription
  let customerId := session.customer
  match session.client_reference_id with
  | none => .ok (subs, 0)
  | some workspaceId =>
      let resolved := resolveCheckoutPlan api env session subscriptionId
      let statusLookup : String × Nat :=
        match subscriptionId with
        | some sid => ((api sid).status, 1)
        | none => ("active", 0)
      .ok (upsertSubscription subs
            { workspace_id := workspaceId,
              stripe_customer_id := customerId,
              stripe_subscription_id := subscriptionId,
              plan := resolved.1,
              status := statusLookup.1 },
           resolved.2 + statusLookup.2)

/-- The Stripe events that reach the dispatch `switch` of `POST`.
`customer.subscription.updated` and `customer.subscription.deleted` share one
case in the source; `deleted` records which of the two types arrived. -/
inductive StripeEvent where
  | checkoutCompleted (id : String) (session : CheckoutSession)
  | subscriptionEvent (id : String) (subscription : StripeSubscription) (deleted : Bool)
  | other (id : String)

/-- Model of `event.id`. -/
def StripeEvent.eventId : StripeEvent → String
  | .checkoutCompleted id _ => id
  | .subscriptionEvent id _ _ => id
  | .other id => id

/-- The database state the webhook route touches: the
`stripe_events_history` table (keyed by `stripe_event_id`) and the
`subscriptions` table. -/
structure WebhookDb where
  events : List (String × StripeEventRow)
  subscriptions : List SubscriptionRow
deriving Repr

/-- Look up the unique `stripe_events_history` row for an event id. -/
def lookupEvent (events : List (String × StripeEventRow)) (eventId : String) :
    Option StripeEventRow :=
  (events.find? (fun e => e.1 = eventId)).map (fun e => e.2)

/-- Store a row under an event id: replace the keyed row if present, else
insert (the INSERT / UPDATE ... eq('stripe_event_id', ...) pair of the
source, merged since the model reads the key first). -/
def storeEvent (events : List (String × StripeEventRow)) (eventId : String)
    (row : StripeEventRow) : List (String × StripeEventRow) :=
  if events.any (fun e => e.1 = eventId) then
    events.map (fun e => if e.1 = eventId then (eventId, row) else e)
  else
    events ++ [(eventId, row)]

/-- Model of `markStripeEventProcessed` (part_004 lines 119–134). -/
def markStripeEventProcessed (now : Int) (events : List (String × StripeEventRow))
    (eventId : String) : List (String × StripeEventRow) :=
  events.map (fun e =>
    if e.1 = eventId then
      (eventId, { e.2 with status := .processed, lastError := none, updatedAt := some now })
    else e)

/-- Model of `markStripeEventFailed` (part_004 lines 136–150); the error text is
truncated to 500 characters by `.slice(0, 500)`. -/
def markStripeEventFailed (now : Int) (events : List (String × StripeEventRow))
    (eventId : String) (err : String) : List (String × StripeEventRow) :=
  events.map (fun e =>
    if e.1 = eventId then
      (eventId, { e.2 with status := .failed, lastError := some (err.take 500), updatedAt := some now })
    else e)

/-- Outcome of one `POST` call: HTTP status, database state after the call,
and the number of `stripe.subscriptions.retrieve` calls issued. -/
structure PostResult where
  httpStatus : Nat
  db : WebhookDb
  stripeLookups : Nat

/-- Model of `POST` (part_004 lines 184–354) after signature verification: claim the
event; skip on `already_processed` (200) or `in_flight` (409); otherwise run
the dispatch switch, marking the claim processed (200) on success and failed
(500) on a thrown error.  `now` is `Date.now()` in milliseconds. -/
def webhookPOST (api : StripeApi) (env : StripeEnv) (now : Int)
    (db : WebhookDb) (event : StripeEvent) : PostResult :=
  let eid := event.eventId
  let claim := claimStripeEvent now (lookupEvent db.events eid)
  let db1 : WebhookDb := { db with events := storeEvent db.events eid claim.2 }
  match claim.1 with
  | .already_processed => { httpStatus := 200, db := db1, stripeLookups := 0 }
  | .in_flight => { httpStatus := 409, db := db1, stripeLookups := 0 }
  | .claimed =>
      let branch : Except String (List SubscriptionRow × Nat) :=
        match event with
        | .checkoutCompleted _ session =>
            handleCheckoutEvent api env db1.subscriptions session
        | .subscriptionEvent _ subscription _ =>
            (handleSubscriptionEvent env db1.subscriptions subscription).map
              (fun subs => (subs, 0))
        | .other _ => .ok (db1.subscriptions, 0)
      match branch with
      | .ok (subs, lookups) =>
          { httpStatus := 200,
            db := { events := markStripeEventProcessed now db1.events eid,
                    subscriptions := subs },
            stripeLookups := lookups }
      | .error msg =>
          { httpStatus := 500,
            db := { events := markStripeEventFailed now db1.events eid msg,
                    subscriptions := db1.subscriptions },
            stripeLookups := 0 }

/-! ## Guest scorer (src/services/audit.service.ts, src/config/constants.ts) -/

/-- The `SlackUser` fields read by `getGuests` and `scoreGuests`:
`deleted`, `is_bot`, `is_restricted`, `is_ultra_restricted` for the guest
filter, `updated` (profile-updated Unix seconds, optional and falsy at 0)
for signal 1. -/
structure SlackUser where
  id : String
  deleted : Bool
  is_bot : Bool
  is_restricted : Bool
  is_ultra_restricted : Bool
  updated : Option Int
deriving DecidableEq, Repr

/-- Model of `AUDIT.SCORE_LAST_MESSAGE = 3` (constants.ts line 39). -/
def SCORE_LAST_MESSAGE : ℚ := 3

/-- Model of `AUDIT.SCORE_PROFILE_UPDATED = 1` (constants.ts line 40). -/
def SCORE_PROFILE_UPDATED : ℚ := 1

/-- Model of `AUDIT.SCORE_PRESENCE_ACTIVE = 0.5` (constants.ts line 41). -/
def SCORE_PRESENCE_ACTIVE : ℚ := 1 / 2

/-- Model of `AUDIT.MIN_ACTIVE_SCORE = 1` (constants.ts line 51). -/
def MIN_ACTIVE_SCORE : ℚ := 1

/-- Model of `AUDIT.ACTIVITY_WINDOW_SECONDS = 30 * 24 * 60 * 60` (constants.ts line 27). -/
def ACTIVITY_WINDOW_SECONDS : Int := 30 * 24 * 60 * 60

/-- Model of `'active' | 'away'`, the value space of `users.getPresence`. -/
inductive Presence where
  | active
  | away
deriving DecidableEq, Repr

/-- Model of `ScoredGuest` of audit.service.ts (`guest`, `score`, `source`), extended
with the number of `getUserPresence` and `getLastMessageTs` calls the scoring
of this guest issued, so the short-circuit property is expressible. -/
structure ScoredGuest where
  guest : SlackUser
  score : ℚ
  source : String
  presenceCalls : Nat
  messageCalls : Nat
deriving DecidableEq, Repr

/-- Signal 1 guard `guest.updated && guest.updated > cutoff`
(audit.service.ts line 188); JS truthiness makes `updated = 0` fail the
first conjunct. -/
def profileUpdatedRecently (cutoff : Int) (guest : SlackUser) : Bool :=
  match guest.updated with
  | some u => decide (u ≠ 0) && decide (u > cutoff)
  | none => false

/-- The per-guest task of `AuditService.scoreGuests` (audit.service.ts lines
184–221): three signals in increasing cost order with short-circuiting at
`MIN_ACTIVE_SCORE`.  `presence` and `lastMsgTs` are the values the two Slack
lookups would return; the result records how many of those lookups were
actually issued. -/
def scoreGuest (cutoff : Int) (presence : Presence) (lastMsgTs : Option Int)
    (guest : SlackUser) : ScoredGuest :=
  let score : ℚ := if profileUpdatedRecently cutoff guest then SCORE_PROFILE_UPDATED else 0
  if score ≥ MIN_ACTIVE_SCORE then
    ⟨guest, score, "profile_check", 0, 0⟩
  else
    let score2 : ℚ := if presence = .active then score + SCORE_PRESENCE_ACTIVE else score
    if score2 ≥ MIN_ACTIVE_SCORE then
      ⟨guest, score2, "profile_presence_check", 1, 0⟩
    else
      let score3 : ℚ :=
        match lastMsgTs with
        | some ts => if ts > cutoff then score2 + SCORE_LAST_MESSAGE else score2
        | none => score2
      ⟨guest, score3, "profile_presence_message_check", 1, 1⟩

/-- Model of `AuditService.scoreGuests`: every guest is scored; `withConcurrency`
batches the tasks but concatenates the batch results in order, so the result
list is the in-order map of the per-guest task. -/
def scoreGuests (cutoff : Int) (presenceOf : String → Presence)
    (lastMsgOf : String → Option Int) (guests : List SlackUser) : List ScoredGuest :=
  guests.map (fun g => scoreGuest cutoff (presenceOf g.id) (lastMsgOf g.id) g)

/-! ## Slack API client (src/lib/slack.ts) -/

/-- Model of `SLACK_API.RATE_LIMIT_DEFAULT_WAIT_MS = 10_000` (constants.ts line 119). -/
def RATE_LIMIT_DEFAULT_WAIT_MS : Nat := 10000

/-- Model of `SLACK_API.RETRY_DELAY_MS = 2_000` (constants.ts line 121). -/
def RETRY_DELAY_MS : Nat := 2000

/-- Model of `SLACK_API.MAX_RETRIES = 3` (constants.ts line 123). -/
def MAX_RETRIES : Nat := 3

/-- What one `fetch` of the Slack API can yield for a body type `T`: a
non-429 response whose JSON parses to `body`; a 429 response with an optional
`Retry-After` header (seconds) whose JSON also parses to `body`; or a network
error (the `catch` path). -/
inductive FetchResult (T : Type) where
  | success (body : T)
  | rateLimited (retryAfter : Option Nat) (body : T)
  | netError
deriving DecidableEq, Repr

/-- How one `slackApiCall` invocation ends: a returned parsed body, a thrown
error, or exhaustion of the modelled fetch trace (a model artifact — the
source would keep fetching). -/
inductive ApiOutcome (T : Type) where
  | ok (body : T)
  | thrown
  | traceEnded
deriving DecidableEq, Repr

/-- Result of `slackApiCall` on a fetch trace: the outcome, the `delay(ms)`
sleeps performed in order, the number of fetches issued, and the unconsumed
remainder of the trace. -/
structure ApiCallResult (T : Type) where
  outcome : ApiOutcome T
  waits : List Nat
  fetches : Nat
  rest : List (FetchResult T)
deriving DecidableEq, Repr

/-- Model of `slackApiCall` (slack.ts lines 49–91) over a trace of fetch results.  A
429 with `retries > 0` sleeps `Retry-After * 1000` when the header is present,
else `RATE_LIMIT_DEFAULT_WAIT_MS`, and recurses with `retries - 1`; a 429
with no retries left falls through to `res.json()` and returns the parsed 429
body.  A network error with `retries > 0` sleeps `RETRY_DELAY_MS` and
recurses; with no retries left it rethrows. -/
def slackApiCall {T : Type} (retries : Nat) :
    List (FetchResult T) → ApiCallResult T
  | [] => ⟨.traceEnded, [], 0, []⟩
  | f :: rest =>
      match f with
      | .success body => ⟨.ok body, [], 1, rest⟩
      | .rateLimited retryAfter body =>
          if retries > 0 then
            let waitMs :=
              match retryAfter with
              | some s => s * 1000
              | none => RATE_LIMIT_DEFAULT_WAIT_MS
            let r := slackApiCall (retries - 1) rest
            ⟨r.outcome, waitMs :: r.waits, r.fetches + 1, r.rest⟩
          else
            ⟨.ok body, [], 1, rest⟩
      | .netError =>
          if retries > 0 then
            let r := slackApiCall (retries - 1) rest
            ⟨r.outcome, RETRY_DELAY_MS :: r.waits, r.fetches + 1, r.rest⟩
          else
            ⟨.thrown, [], 1, rest⟩

/-- The `users.getPresence` response fields the client reads. -/
structure PresenceBody where
  ok : Bool
  presence : Presence
deriving DecidableEq, Repr

/-- Result of `getUserPresence`: the returned presence (or propagated
failure) plus the retry instrumentation of the underlying `slackApiCall`. -/
structure PresenceResult where
  outcome : ApiOutcome Presence
  waits : List Nat
  fetches : Nat
deriving DecidableEq, Repr

/-- Model of `getUserPresence` (slack.ts lines 198–214): one `slackApiCall` with the
default retry budget; a response with `ok = false` yields `'away'` (fail
soft); a thrown error is not caught and propagates. -/
def getUserPresence (trace : List (FetchResult PresenceBody)) : PresenceResult :=
  let r := slackApiCall MAX_RETRIES trace
  match r.outcome with
  | .ok data =>
      if data.ok then ⟨.ok data.presence, r.waits, r.fetches⟩
      else ⟨.ok .away, r.waits, r.fetches⟩
  | .thrown => ⟨.thrown, r.waits, r.fetches⟩
  | .traceEnded => ⟨.traceEnded, r.waits, r.fetches⟩

/-- The `users.list` response fields the client reads: `ok`, `members`, and
`response_metadata?.next_cursor`. -/
structure UsersListBody where
  ok : Bool
  members : List SlackUser
  next_cursor : Option String
deriving DecidableEq, Repr

/-- The guest filter of `getGuests` (slack.ts line 180):
`!m.deleted && (m.is_restricted || m.is_ultra_restricted) && !m.is_bot`. -/
def guestFilter (m : SlackUser) : Bool :=
  !m.deleted && (m.is_restricted || m.is_ultra_restricted) && !m.is_bot

/-- Model of `data.response_metadata?.next_cursor || undefined` (slack.ts line 184):
an absent or empty cursor ends the pagination loop. -/
def normCursor (data : UsersListBody) : Option String :=
  match data.next_cursor with
  | some s => if s = "" then none else some s
  | none => none

/-- A well-formed run of `users.list` pages: every page but the last carries
a non-empty continuation cursor, the last page carries none — the shape the
Slack API guarantees for a complete pagination. -/
def pagesChain : List UsersListBody → Bool
  | [] => true
  | [p] => (normCursor p).isNone
  | p :: q :: rest => (normCursor p).isSome && pagesChain (q :: rest)

theorem slackApiCall_rest_length_le {T : Type} (retries : Nat)
    (trace : List (FetchResult T)) :
    (slackApiCall retries trace).rest.length ≤ trace.length := by
  induction trace generalizing retries with
  | nil => simp [slackApiCall]
  | cons f rest ih =>
      cases f with
      | success body =>
          simp [slackApiCall]
      | rateLimited retryAfter body =>
          by_cases hr : retries > 0
          · simp only [slackApiCall, if_pos hr]
            exact le_trans (ih (retries - 1)) (Nat.le_succ _)
          · simp [slackApiCall, hr]
      | netError =>
          by_cases hr : retries > 0
          · simp only [slackApiCall, if_pos hr]
            exact le_trans (ih (retries - 1)) (Nat.le_succ _)
          · simp [slackApiCall, hr]

theorem slackApiCall_rest_length_lt {T : Type} (retries : Nat)
    (f : FetchResult T) (rest : List (FetchResult T)) :
    (slackApiCall retries (f :: rest)).rest.length < (f :: rest).length := by
  cases f with
  | success body => simp [slackApiCall]
  | rateLimited retryAfter body =>
      by_cases hr : retries > 0
      · simp only [slackApiCall, if_pos hr, List.length_cons]
        exact Nat.lt_succ_of_le (slackApiCall_rest_length_le (retries - 1) rest)
      · simp [slackApiCall, hr]
  | netError =>
      by_cases hr : retries > 0
      · simp only [slackApiCall, if_pos hr, List.length_cons]
        exact Nat.lt_succ_of_le (slackApiCall_rest_length_le (retries - 1) rest)
      · simp [slackApiCall, hr]

/-- Model of `getGuests` (slack.ts lines 158–188) over a fetch trace: a do-while loop
that fetches one `users.list` page per iteration (through `slackApiCall`),
appends the guest-filtered members, and continues exactly while a non-empty
`next_cursor` is returned — no page-count cap.  `ok = false` throws; an
exhausted trace is a model artifact mapped to an error. -/
def getGuests : List (FetchResult UsersListBody) → Except String (List SlackUser)
  | [] => .error ("trace ended")
  | f :: rest =>
      match (slackApiCall MAX_RETRIES (f :: rest)).outcome with
      | .thrown => .error ("network error")
      | .traceEnded => .error ("trace ended")
      | .ok data =>
          if data.ok then
            match normCursor data with
            | some _ =>
                (getGuests (slackApiCall MAX_RETRIES (f :: rest)).rest).map
                  (fun tail => data.members.filter guestFilter ++ tail)
            | none => .ok (data.members.filter guestFilter)
          else
            .error ("Slack users.list failed")
termination_by trace => trace.length
decreasing_by
  simpa using slackApiCall_rest_length_lt MAX_RETRIES f rest

/-! ## Audit persistence (audit.service.ts lines 226–267) -/

/-- One row of the `guest_audits` table (unique key
`(workspace_id, slack_user_id)`), as written by `flagGuests`. -/
structure GuestAuditRow where
  workspace_id : String
  slack_user_id : String
  last_seen_source : String
  estimated_cost_monthly : ℚ
  estimated_cost_yearly : ℚ
  is_flagged : Bool
  action_taken : String
deriving DecidableEq, Repr

/-- The natural key `(workspace_id, slack_user_id)` of `guest_audits`. -/
def auditKey (r : GuestAuditRow) : String × String := (r.workspace_id, r.slack_user_id)

/-- Model of `upsert(..., { onConflict: 'workspace_id,slack_user_id' })` for a single
record: replace the row carrying the same natural key if present, else
append. -/
def upsertGuestAudit (tbl : List GuestAuditRow) (rec : GuestAuditRow) :
    List GuestAuditRow :=
  if tbl.any (fun r => auditKey r = auditKey rec) then
    tbl.map (fun r => if auditKey r = auditKey rec then rec else r)
  else
    tbl ++ [rec]

/-- The multi-row upsert of `flagGuests`: one batch of records applied
left-to-right on the natural key. -/
def upsertGuestAudits (tbl : List GuestAuditRow) (recs : List GuestAuditRow) :
    List GuestAuditRow :=
  recs.foldl upsertGuestAudit tbl

/-- The records `flagGuests` builds from the inactive scored guests
(audit.service.ts lines 233–241). -/
def flagRecords (workspaceId : String) (costPerSeat : ℚ)
    (guests : List ScoredGuest) : List GuestAuditRow :=
  guests.map (fun sg =>
    ⟨workspaceId, sg.guest.id, sg.source, costPerSeat, costPerSeat * 12, true, "flagged"⟩)

/-- Model of `clearActiveGuests` (audit.service.ts lines 252–267): delete every row of
this workspace whose `slack_user_id` is among the now-active guest ids. -/
def clearActiveGuests (workspaceId : String) (activeGuestIds : List String)
    (tbl : List GuestAuditRow) : List GuestAuditRow :=
  tbl.filter (fun r =>
    !(decide (r.workspace_id = workspaceId) && activeGuestIds.contains r.slack_user_id))

/-- The per-workspace persistence step of `auditWorkspace` (audit.service.ts
lines 126–133): partition the scored guests at `MIN_ACTIVE_SCORE`, upsert the
inactive ones, delete the active ones.  The source runs the two statements in
`Promise.all`; they touch disjoint key sets (a guest id is inactive or active,
never both), so the sequential composition modelled here is the only
observable outcome. -/
def auditPersist (workspaceId : String) (costPerSeat : ℚ)
    (scored : List ScoredGuest) (tbl : List GuestAuditRow) : List GuestAuditRow :=
  let inactive := scored.filter (fun sg => sg.score < MIN_ACTIVE_SCORE)
  let active := scored.filter (fun sg => sg.score ≥ MIN_ACTIVE_SCORE)
  clearActiveGuests workspaceId (active.map (fun sg => sg.guest.id))
    (upsertGuestAudits tbl (flagRecords workspaceId costPerSeat inactive))

/-- At most one `guest_audits` row per natural key — the invariant the unique
index `idx_guest_audits_workspace_user_unique` enforces. -/
def nodupKeys (tbl : List GuestAuditRow) : Prop := (tbl.map auditKey).Nodup

/-! ## Audit tenant selection and uninstall
(audit.service.ts lines 97–112, slack-event.service.ts lines 48–66) -/

/-- The `workspaces` columns touched by `fetchActiveWorkspaces` and
`handleAppUninstalled`. -/
structure Workspace where
  id : String
  refresh_token : Option String
  is_active : Bool
  uninstalled_at : Option Int
deriving DecidableEq, Repr

/-- Model of `AuditService.fetchActiveWorkspaces`: subscription rows with status in
`['active', 'trialing']`, inner-joined to `workspaces` on `workspace_id`.
Note: no condition on `workspaces.is_active`. -/
def fetchActiveWorkspaces (workspaces : List Workspace)
    (subs : List SubscriptionRow) : List Workspace :=
  (subs.filter (fun s => s.status = "active" || s.status = "trialing")).filterMap
    (fun s => workspaces.find? (fun w => w.id = s.workspace_id))

/-- Model of `SlackEventService.handleAppUninstalled`: clear `refresh_token`, set
`is_active = false` and `uninstalled_at`, for the matching workspace row.
The `subscriptions` table is not touched. -/
def handleAppUninstalled (now : Int) (workspaceId : String)
    (workspaces : List Workspace) : List Workspace :=
  workspaces.map (fun w =>
    if w.id = workspaceId then
      { w with refresh_token := none, is_active := false, uninstalled_at := some now }
    else w)

/-! ### `guest_audits` upsert facts -/

theorem upsertGuestAudit_keys_of_mem (tbl : List GuestAuditRow) (rec : GuestAuditRow)
    (hmem : tbl.any (fun r => auditKey r = auditKey rec) = true) :
    (upsertGuestAudit tbl rec).map auditKey = tbl.map auditKey := by
  unfold upsertGuestAudit
  rw [if_pos hmem, List.map_map]
  refine List.map_congr_left (fun r _ => ?_)
  by_cases h : auditKey r = auditKey rec
  · simp [h]
  · simp [h]

theorem nodupKeys_upsertGuestAudit (tbl : List GuestAuditRow) (rec : GuestAuditRow)
    (h : nodupKeys tbl) : nodupKeys (upsertGuestAudit tbl rec) := by
  by_cases hmem : tbl.any (fun r => auditKey r = auditKey rec) = true
  · unfold nodupKeys
    rw [upsertGuestAudit_keys_of_mem tbl rec hmem]
    exact h
  · unfold nodupKeys upsertGuestAudit
    rw [if_neg hmem, List.map_append, List.nodup_append]
    refine ⟨h, List.nodup_singleton _, ?_⟩
    intro a ha hb
    rw [List.any_eq_true] at hmem
    obtain ⟨r, hr, hkey⟩ := List.mem_map.mp ha
    rcases List.mem_singleton.mp hb with rfl
    exact hmem ⟨r, hr, by simp [hkey]⟩

theorem nodupKeys_upsertGuestAudits (tbl : List GuestAuditRow)
    (recs : List GuestAuditRow) (h : nodupKeys tbl) :
    nodupKeys (upsertGuestAudits tbl recs) := by
  induction recs generalizing tbl with
  | nil => exact h
  | cons rec rest ih => exact ih _ (nodupKeys_upsertGuestAudit tbl rec h)

theorem mem_upsertGuestAudit_self (tbl : List GuestAuditRow) (rec : GuestAuditRow) :
    rec ∈ upsertGuestAudit tbl rec := by
  unfold upsertGuestAudit
  split
  · rename_i hmem
    rw [List.any_eq_true] at hmem
    obtain ⟨r, hr, hkey⟩ := hmem
    refine List.mem_map.mpr ⟨r, hr, ?_⟩
    simp [of_decide_eq_true hkey]
  · exact List.mem_append_right _ (List.mem_singleton_self rec)

theorem mem_upsertGuestAudit_of_ne (tbl : List GuestAuditRow)
    (rec r : GuestAuditRow) (hne : auditKey r ≠ auditKey rec) (hr : r ∈ tbl) :
    r ∈ upsertGuestAudit tbl rec := by
  unfold upsertGuestAudit
  split
  · refine List.mem_map.mpr ⟨r, hr, ?_⟩
    simp [hne]
  · exact List.mem_append_left _ hr

theorem mem_upsertGuestAudits_of_ne (tbl : List GuestAuditRow)
    (recs : List GuestAuditRow) (r : GuestAuditRow)
    (hne : ∀ rec ∈ recs, auditKey r ≠ auditKey rec) (hr : r ∈ tbl) :
    r ∈ upsertGuestAudits tbl recs := by
  induction recs generalizing tbl with
  | nil => exact hr
  | cons rec rest ih =>
      exact ih _ (fun x hx => hne x (List.mem_cons_of_mem _ hx))
        (mem_upsertGuestAudit_of_ne tbl rec r (hne rec (List.mem_cons_self _ _)) hr)

theorem mem_upsertGuestAudits_self (tbl : List GuestAuditRow)
    (recs : List GuestAuditRow) (hkeys : (recs.map auditKey).Nodup) :
    ∀ rec ∈ recs, rec ∈ upsertGuestAudits tbl recs := by
  induction recs generalizing tbl with
  | nil => intro rec h; cases h
  | cons r0 rest ih =>
      have hkeys' : (auditKey r0 :: rest.map auditKey).Nodup := by simpa using hkeys
      intro rec hrec
      rcases List.mem_cons.mp hrec with h | h
      · subst h
        refine mem_upsertGuestAudits_of_ne _ rest rec
          (fun x hx he => ?_) (mem_upsertGuestAudit_self tbl rec)
        exact (List.nodup_cons.mp hkeys').1 (he ▸ List.mem_map_of_mem auditKey hx)
      · exact ih _ (List.nodup_cons.mp hkeys').2 rec h

theorem upsertGuestAudit_mem_id (tbl : List GuestAuditRow) (rec : GuestAuditRow)
    (hnd : nodupKeys tbl) (hmem : rec ∈ tbl) : upsertGuestAudit tbl rec = tbl := by
  unfold upsertGuestAudit
  rw [if_pos (List.any_eq_true.mpr ⟨rec, hmem, by simp⟩)]
  have hpt : ∀ r ∈ tbl, (if auditKey r = auditKey rec then rec else r) = r := by
    intro r hr
    by_cases h : auditKey r = auditKey rec
    · rw [if_pos h]
      exact (List.inj_on_of_nodup_map hnd hr hmem h).symm
    · rw [if_neg h]
  rw [List.map_congr_left hpt]
  exact List.map_id' tbl

theorem upsertGuestAudits_mem_id (tbl : List GuestAuditRow)
    (recs : List GuestAuditRow) (hnd : nodupKeys tbl)
    (hmem : ∀ rec ∈ recs, rec ∈ tbl) : upsertGuestAudits tbl recs = tbl := by
  induction recs with
  | nil => rfl
  | cons r rest ih =>
      show upsertGuestAudits (upsertGuestAudit tbl r) rest = tbl
      rw [upsertGuestAudit_mem_id tbl r hnd (hmem r (List.mem_cons_self _ _))]
      exact ih (fun x hx => hmem x (List.mem_cons_of_mem _ hx))

theorem clearActiveGuests_idem (w : String) (ids : List String)
    (tbl : List GuestAuditRow) :
    clearActiveGuests w ids (clearActiveGuests w ids tbl) =
      clearActiveGuests w ids tbl := by
  unfold clearActiveGuests
  rw [List.filter_filter]
  simp

theorem nodupKeys_clearActiveGuests (w : String) (ids : List String)
    (tbl : List GuestAuditRow) (h : nodupKeys tbl) :
    nodupKeys (clearActiveGuests w ids tbl) :=
  h.sublist ((List.filter_sublist tbl).map auditKey)

theorem clear_upsert_nodup_and_idem (w : String) (ids : List String)
    (recs : List GuestAuditRow) (tbl : List GuestAuditRow)
    (htbl : nodupKeys tbl) (hkeys : (recs.map auditKey).Nodup)
    (hsafe : ∀ rec ∈ recs, ids.contains rec.slack_user_id = false) :
    nodupKeys (clearActiveGuests w ids (upsertGuestAudits tbl recs)) ∧
    clearActiveGuests w ids
        (upsertGuestAudits (clearActiveGuests w ids (upsertGuestAudits tbl recs)) recs) =
      clearActiveGuests w ids (upsertGuestAudits tbl recs) := by
  have hnd1 : nodupKeys (upsertGuestAudits tbl recs) :=
    nodupKeys_upsertGuestAudits tbl recs htbl
  have hnd2 : nodupKeys (clearActiveGuests w ids (upsertGuestAudits tbl recs)) :=
    nodupKeys_clearActiveGuests w ids _ hnd1
  refine ⟨hnd2, ?_⟩
  have hmem2 : ∀ rec ∈ recs, rec ∈ clearActiveGuests w ids (upsertGuestAudits tbl recs) := by
    intro rec hrec
    refine List.mem_filter.mpr ⟨mem_upsertGuestAudits_self tbl recs hkeys rec hrec, ?_⟩
    rw [hsafe rec hrec]
    simp
  rw [upsertGuestAudits_mem_id _ recs hnd2 hmem2, clearActiveGuests_idem]

/-! ### Association-list facts about the `stripe_events_history` table -/

theorem lookupEvent_eq_none_iff {events : List (String × StripeEventRow)} {eid : String} :
    lookupEvent events eid = none ↔ ∀ e ∈ events, e.1 ≠ eid := by
  simp [lookupEvent, List.find?_eq_none]

theorem storeEvent_fresh (events : List (String × StripeEventRow)) (eid : String)
    (row : StripeEventRow) (h : ∀ e ∈ events, e.1 ≠ eid) :
    storeEvent events eid row = events ++ [(eid, row)] := by
  have hany : events.any (fun e => e.1 = eid) = false := by
    simp only [List.any_eq_false, decide_eq_true_eq]
    exact h
  simp [storeEvent, hany]

theorem lookupEvent_append (events : List (String × StripeEventRow)) (eid : String)
    (row : StripeEventRow) (h : ∀ e ∈ events, e.1 ≠ eid) :
    lookupEvent (events ++ [(eid, row)]) eid = some row := by
  induction events with
  | nil => simp [lookupEvent]
  | cons e es ih =>
      have he : e.1 ≠ eid := h e (List.mem_cons_self e es)
      have ih' := ih (fun x hx => h x (List.mem_cons_of_mem e hx))
      simpa [lookupEvent, List.find?, he] using ih'

theorem markStripeEventFailed_append (now : Int) (events : List (String × StripeEventRow))
    (eid : String) (row : StripeEventRow) (msg : String) (h : ∀ e ∈ events, e.1 ≠ eid) :
    markStripeEventFailed now (events ++ [(eid, row)]) eid msg =
      events ++ [(eid, { row with status := .failed, lastError := some (msg.take 500), updatedAt := some now })] := by
  induction events with
  | nil => simp [markStripeEventFailed]
  | cons e es ih =>
      have he : e.1 ≠ eid := h e (List.mem_cons_self e es)
      have ih' := ih (fun x hx => h x (List.mem_cons_of_mem e hx))
      simpa [markStripeEventFailed, he] using ih'

theorem markStripeEventProcessed_append (now : Int) (events : List (String × StripeEventRow))
    (eid : String) (row : StripeEventRow) (h : ∀ e ∈ events, e.1 ≠ eid) :
    markStripeEventProcessed now (events ++ [(eid, row)]) eid =
      events ++ [(eid, { row with status := .processed, lastError := none, updatedAt := some now })] := by
  induction events with
  | nil => simp [markStripeEventProcessed]
  | cons e es ih =>
      have he : e.1 ≠ eid := h e (List.mem_cons_self e es)
      have ih' := ih (fun x hx => h x (List.mem_cons_of_mem e hx))
      simpa [markStripeEventProcessed, he] using ih'

end Sentinel

namespace Sentinel

/-- C1: `claimStripeEvent` coincides with the claim's state machine on every
input: insert ⇒ claimed; processed ⇒ already_processed; processing and not
stale ⇒ in_flight; failed, or processing and stale ⇒ reclaim with the attempt
counter incremented by one. -/
theorem C1_claim_state_machine (now : Int) (row : Option StripeEventRow) :
    claimStripeEvent now row = claimSpecC1 now row := by
  match row with
  | none => rfl
  | some r =>
    cases hs : r.status with
    | processed =>
        simp [claimStripeEvent, claimSpecC1, hs]
    | failed =>
        simp [claimStripeEvent, claimSpecC1, hs]
    | processing =>
        by_cases hstale : now - r.updatedAt.getD 0 > PROCESSING_STALE_MS
        · simp [claimStripeEvent, claimSpecC1, hs, hstale, not_le.mpr hstale]
        · simp [claimStripeEvent, claimSpecC1, hs, hstale, not_lt.mp hstale]

/-- C2: a `customer.subscription.updated` / `customer.subscription.deleted`
event with an active-equivalent status and an unrecognized price id is a hard
error: the route answers 500, the claim row ends up `failed`, the
`subscriptions` table is untouched and no plan is silently defaulted (no
Stripe lookup either). -/
theorem C2_unknown_price_is_hard_error (api : StripeApi) (env : StripeEnv)
    (now : Int) (db : WebhookDb) (eid : String) (sub : StripeSubscription)
    (deleted : Bool)
    (hfresh : lookupEvent db.events eid = none)
    (hactive : isActiveEquivalent sub.status)
    (hprice : mapPriceIdToPlan env sub.priceId = none) :
    (webhookPOST api env now db (.subscriptionEvent eid sub deleted)).httpStatus = 500 ∧
    (lookupEvent (webhookPOST api env now db (.subscriptionEvent eid sub deleted)).db.events eid).map
        StripeEventRow.status = some .failed ∧
    (webhookPOST api env now db (.subscriptionEvent eid sub deleted)).db.subscriptions =
        db.subscriptions ∧
    (webhookPOST api env now db (.subscriptionEvent eid sub deleted)).stripeLookups = 0 := by
  have hkeys : ∀ e ∈ db.events, e.1 ≠ eid := lookupEvent_eq_none_iff.mp hfresh
  have hbranch : handleSubscriptionEvent env db.subscriptions sub =
      .error ("Unknown Stripe price ID for active subscription " ++ sub.id) := by
    unfold handleSubscriptionEvent
    rw [if_pos ⟨hactive, hprice⟩]
  unfold webhookPOST
  simp only [StripeEvent.eventId, hfresh, claimStripeEvent,
    storeEvent_fresh db.events eid _ hkeys, hbranch, Except.map]
  refine ⟨trivial, ?_, trivial, trivial⟩
  rw [markStripeEventFailed_append now db.events eid _ _ hkeys,
    lookupEvent_append _ _ _ hkeys]
  rfl

/-- Witness for C2 at a concrete event: fresh event id, status `"active"`,
price id mapping to no plan. -/
theorem C2_unknown_price_is_hard_error_witness :
    (lookupEvent ([] : List (String × StripeEventRow)) "evt_1" = none) ∧
    isActiveEquivalent ("active") ∧
    (mapPriceIdToPlan ⟨"price_s", "price_g", "price_c"⟩ (some ("price_unknown")) = none) ∧
    ((webhookPOST (fun _ => ⟨none, "active"⟩) ⟨"price_s", "price_g", "price_c"⟩ 0
        ⟨[], []⟩ (.subscriptionEvent ("evt_1") ⟨"sub_1", "active", some ("price_unknown"), some ("ws_1"), some ("cus_1")⟩ false)).httpStatus = 500 ∧
      (lookupEvent (webhookPOST (fun _ => ⟨none, "active"⟩) ⟨"price_s", "price_g", "price_c"⟩ 0
        ⟨[], []⟩ (.subscriptionEvent ("evt_1") ⟨"sub_1", "active", some ("price_unknown"), some ("ws_1"), some ("cus_1")⟩ false)).db.events ("evt_1")).map
          StripeEventRow.status = some .failed ∧
      (webhookPOST (fun _ => ⟨none, "active"⟩) ⟨"price_s", "price_g", "price_c"⟩ 0
        ⟨[], []⟩ (.subscriptionEvent ("evt_1") ⟨"sub_1", "active", some ("price_unknown"), some ("ws_1"), some ("cus_1")⟩ false)).db.subscriptions = [] ∧
      (webhookPOST (fun _ => ⟨none, "active"⟩) ⟨"price_s", "price_g", "price_c"⟩ 0
        ⟨[], []⟩ (.subscriptionEvent ("evt_1") ⟨"sub_1", "active", some ("price_unknown"), some ("ws_1"), some ("cus_1")⟩ false)).stripeLookups = 0) :=
  ⟨by decide, Or.inl rfl, by decide,
    C2_unknown_price_is_hard_error (fun _ => ⟨none, "active"⟩)
      ⟨"price_s", "price_g", "price_c"⟩ 0 ⟨[], []⟩ "evt_1"
      ⟨"sub_1", "active", some ("price_unknown"), some ("ws_1"), some ("cus_1")⟩ false
      (by decide) (Or.inl rfl) (by decide)⟩

/-- C3: checkout plan resolution — a valid metadata plan wins with no Stripe
lookup; otherwise the price id of the retrieved subscription object is mapped
(one lookup); otherwise the default plan `starter` is used.  Scenario: a
checkout-completed event with metadata plan `"growth"` and no subscription id
upserts a row with plan `growth` and the active-equivalent status `"active"`,
performing no Stripe subscription lookup. -/
theorem C3_checkout_plan_resolution :
    (∀ (api : StripeApi) (env : StripeEnv) (session : CheckoutSession)
        (sid : Option String) (plan : SubscriptionPlan),
        parsePaidPlan (session.metadataPlan.getD ("")) = some plan →
        resolveCheckoutPlan api env session sid = (plan, 0)) ∧
    (∀ (api : StripeApi) (env : StripeEnv) (session : CheckoutSession)
        (sid : String) (plan : SubscriptionPlan),
        parsePaidPlan (session.metadataPlan.getD ("")) = none →
        mapPriceIdToPlan env (api sid).priceId = some plan →
        resolveCheckoutPlan api env session (some sid) = (plan, 1)) ∧
    (∀ (api : StripeApi) (env : StripeEnv) (session : CheckoutSession) (sid : String),
        parsePaidPlan (session.metadataPlan.getD ("")) = none →
        mapPriceIdToPlan env (api sid).priceId = none →
        resolveCheckoutPlan api env session (some sid) = (.starter, 1)) ∧
    (∀ (api : StripeApi) (env : StripeEnv) (session : CheckoutSession),
        parsePaidPlan (session.metadataPlan.getD ("")) = none →
        resolveCheckoutPlan api env session none = (.starter, 0)) ∧
    (∀ (api : StripeApi) (env : StripeEnv) (now : Int) (db : WebhookDb)
        (eid sessId w : String) (cust : Option String),
        lookupEvent db.events eid = none →
        (webhookPOST api env now db
            (.checkoutCompleted eid ⟨sessId, some w, none, cust, some ("growth")⟩)).httpStatus = 200 ∧
        (webhookPOST api env now db
            (.checkoutCompleted eid ⟨sessId, some w, none, cust, some ("growth")⟩)).db.subscriptions =
          upsertSubscription db.subscriptions ⟨w, cust, none, .growth, "active"⟩ ∧
        isActiveEquivalent ("active") ∧
        (webhookPOST api env now db
            (.checkoutCompleted eid ⟨sessId, some w, none, cust, some ("growth")⟩)).stripeLookups = 0 ∧
        (lookupEvent (webhookPOST api env now db
            (.checkoutCompleted eid ⟨sessId, some w, none, cust, some ("growth")⟩)).db.events eid).map
          StripeEventRow.status = some .processed) := by
  refine ⟨?_, ?_, ?_, ?_, ?_⟩
  · intro api env session sid plan hmeta
    simp [resolveCheckoutPlan, hmeta]
  · intro api env session sid plan hmeta hprice
    simp [resolveCheckoutPlan, hmeta, hprice]
  · intro api env session sid hmeta hprice
    simp [resolveCheckoutPlan, hmeta, hprice]
  · intro api env session hmeta
    simp [resolveCheckoutPlan, hmeta]
  · intro api env now db eid sessId w cust hfresh
    have hkeys : ∀ e ∈ db.events, e.1 ≠ eid := lookupEvent_eq_none_iff.mp hfresh
    have hbranch : handleCheckoutEvent api env db.subscriptions
        ⟨sessId, some w, none, cust, some ("growth")⟩ =
        .ok (upsertSubscription db.subscriptions ⟨w, cust, none, .growth, "active"⟩, 0) := by
      unfold handleCheckoutEvent resolveCheckoutPlan
      rfl
    unfold webhookPOST
    simp only [StripeEvent.eventId, hfresh, claimStripeEvent,
      storeEvent_fresh db.events eid _ hkeys, hbranch]
    refine ⟨trivial, trivial, Or.inl rfl, trivial, ?_⟩
    rw [markStripeEventProcessed_append now db.events eid _ hkeys,
      lookupEvent_append _ _ _ hkeys]
    rfl

/-- Witness for C3 at concrete inputs: metadata plan `"growth"` with no
subscription id (no lookup); missing metadata recovered from the price id
(one lookup); missing metadata and unknown price id defaulting to `starter`;
and the concrete checkout scenario on an empty database. -/
theorem C3_checkout_plan_resolution_witness :
    (parsePaidPlan ((some ("growth") : Option String).getD ("")) = some .growth ∧
      resolveCheckoutPlan (fun _ => ⟨none, "active"⟩) ⟨"ps", "pg", "pc"⟩
        ⟨"cs_1", some ("ws_1"), none, some ("cus_1"), some ("growth")⟩ none = (.growth, 0)) ∧
    (resolveCheckoutPlan (fun _ => ⟨some ("pg"), "active"⟩) ⟨"ps", "pg", "pc"⟩
        ⟨"cs_2", some ("ws_1"), some ("sub_1"), some ("cus_1"), none⟩ (some ("sub_1")) = (.growth, 1)) ∧
    (resolveCheckoutPlan (fun _ => ⟨some ("mystery"), "active"⟩) ⟨"ps", "pg", "pc"⟩
        ⟨"cs_3", some ("ws_1"), some ("sub_1"), some ("cus_1"), none⟩ (some ("sub_1")) = (.starter, 1)) ∧
    (resolveCheckoutPlan (fun _ => ⟨none, "active"⟩) ⟨"ps", "pg", "pc"⟩
        ⟨"cs_4", some ("ws_1"), none, some ("cus_1"), none⟩ none = (.starter, 0)) ∧
    (lookupEvent ([] : List (String × StripeEventRow)) "evt_2" = none ∧
      (webhookPOST (fun _ => ⟨none, "active"⟩) ⟨"ps", "pg", "pc"⟩ 0 ⟨[], []⟩
          (.checkoutCompleted ("evt_2") ⟨"cs_5", some ("ws_1"), none, some ("cus_1"), some ("growth")⟩)).db.subscriptions =
        upsertSubscription [] ⟨"ws_1", some ("cus_1"), none, .growth, "active"⟩ ∧
      (webhookPOST (fun _ => ⟨none, "active"⟩) ⟨"ps", "pg", "pc"⟩ 0 ⟨[], []⟩
          (.checkoutCompleted ("evt_2") ⟨"cs_5", some ("ws_1"), none, some ("cus_1"), some ("growth")⟩)).stripeLookups = 0) :=
  ⟨⟨by decide, C3_checkout_plan_resolution.1 (fun _ => ⟨none, "active"⟩) ⟨"ps", "pg", "pc"⟩
      ⟨"cs_1", some ("ws_1"), none, some ("cus_1"), some ("growth")⟩ none .growth (by decide)⟩,
   C3_checkout_plan_resolution.2.1 (fun _ => ⟨some ("pg"), "active"⟩) ⟨"ps", "pg", "pc"⟩
      ⟨"cs_2", some ("ws_1"), some ("sub_1"), some ("cus_1"), none⟩ "sub_1" .growth (by decide) (by decide),
   C3_checkout_plan_resolution.2.2.1 (fun _ => ⟨some ("mystery"), "active"⟩) ⟨"ps", "pg", "pc"⟩
      ⟨"cs_3", some ("ws_1"), some ("sub_1"), some ("cus_1"), none⟩ "sub_1" (by decide) (by decide),
   C3_checkout_plan_resolution.2.2.2.1 (fun _ => ⟨none, "active"⟩) ⟨"ps", "pg", "pc"⟩
      ⟨"cs_4", some ("ws_1"), none, some ("cus_1"), none⟩ (by decide),
   by
    have h := C3_checkout_plan_resolution.2.2.2.2 (fun _ => ⟨none, "active"⟩)
      ⟨"ps", "pg", "pc"⟩ 0 ⟨[], []⟩ "evt_2" "cs_5" "ws_1" (some ("cus_1")) (by decide)
    exact ⟨by decide, h.2.1, h.2.2.2.1⟩⟩

/-- C4: presence alone never crosses the active threshold — the presence
weight is strictly below `MIN_ACTIVE_SCORE`, and a guest whose only signal is
presence-active (no qualifying profile update, no message within the window)
scores exactly the presence weight and is classified inactive
(`score < MIN_ACTIVE_SCORE`). -/
theorem C4_presence_alone_is_inactive (cutoff : Int) (guest : SlackUser)
    (lastMsgTs : Option Int)
    (hprofile : profileUpdatedRecently cutoff guest = false)
    (hmsg : ∀ ts, lastMsgTs = some ts → ts ≤ cutoff) :
    SCORE_PRESENCE_ACTIVE < MIN_ACTIVE_SCORE ∧
    (scoreGuest cutoff .active lastMsgTs guest).score = SCORE_PRESENCE_ACTIVE ∧
    (scoreGuest cutoff .active lastMsgTs guest).score < MIN_ACTIVE_SCORE := by
  have hthresh : SCORE_PRESENCE_ACTIVE < MIN_ACTIVE_SCORE := by
    unfold SCORE_PRESENCE_ACTIVE MIN_ACTIVE_SCORE; norm_num
  have hscore : (scoreGuest cutoff .active lastMsgTs guest).score = SCORE_PRESENCE_ACTIVE := by
    unfold scoreGuest
    rw [hprofile]
    cases lastMsgTs with
    | none =>
        simp only [SCORE_PROFILE_UPDATED, SCORE_PRESENCE_ACTIVE, MIN_ACTIVE_SCORE]
        norm_num
    | some ts =>
        have hts : ¬ ts > cutoff := not_lt.mpr (hmsg ts rfl)
        simp only [SCORE_PROFILE_UPDATED, SCORE_PRESENCE_ACTIVE, MIN_ACTIVE_SCORE, hts]
        norm_num
  exact ⟨hthresh, hscore, hscore ▸ hthresh⟩

/-- Witness for C4: a guest with no profile update and a stale last message,
scored with presence `active`. -/
theorem C4_presence_alone_is_inactive_witness :
    profileUpdatedRecently 100 ⟨"G1", false, false, true, false, some 50⟩ = false ∧
    (SCORE_PRESENCE_ACTIVE < MIN_ACTIVE_SCORE ∧
      (scoreGuest 100 .active (some 80) ⟨"G1", false, false, true, false, some 50⟩).score =
        SCORE_PRESENCE_ACTIVE ∧
      (scoreGuest 100 .active (some 80) ⟨"G1", false, false, true, false, some 50⟩).score <
        MIN_ACTIVE_SCORE) :=
  ⟨by decide,
    C4_presence_alone_is_inactive 100 ⟨"G1", false, false, true, false, some 50⟩ (some 80)
      (by decide) (by intro ts hts; cases hts; decide)⟩

/-- C5: a qualifying profile update short-circuits scoring — the guest is
classified active with the exact result of signal 1 (`score = 1`, source
`"profile_check"`) and zero presence / message-history API calls. -/
theorem C5_profile_update_short_circuits (cutoff : Int) (presence : Presence)
    (lastMsgTs : Option Int) (guest : SlackUser)
    (hprofile : profileUpdatedRecently cutoff guest = true) :
    scoreGuest cutoff presence lastMsgTs guest =
      ⟨guest, SCORE_PROFILE_UPDATED, "profile_check", 0, 0⟩ ∧
    SCORE_PROFILE_UPDATED ≥ MIN_ACTIVE_SCORE := by
  constructor
  · unfold scoreGuest
    rw [hprofile]
    simp [SCORE_PROFILE_UPDATED, MIN_ACTIVE_SCORE]
  · unfold SCORE_PROFILE_UPDATED MIN_ACTIVE_SCORE; norm_num

/-- Witness for C5: a guest whose profile was updated inside the window,
scored with an away presence oracle and a fresh message oracle (neither may
be consulted). -/
theorem C5_profile_update_short_circuits_witness :
    profileUpdatedRecently 100 ⟨"G2", false, false, true, false, some 150⟩ = true ∧
    (scoreGuest 100 .away (some 150) ⟨"G2", false, false, true, false, some 150⟩ =
      ⟨⟨"G2", false, false, true, false, some 150⟩, SCORE_PROFILE_UPDATED, "profile_check", 0, 0⟩ ∧
    SCORE_PROFILE_UPDATED ≥ MIN_ACTIVE_SCORE) :=
  ⟨by decide,
    C5_profile_update_short_circuits 100 .away (some 150)
      ⟨"G2", false, false, true, false, some 150⟩ (by decide)⟩

/-- C6: the shared `slackApiCall` wrapper backs a 429 off by the
`Retry-After` hint (seconds × 1000) when present and by
`RATE_LIMIT_DEFAULT_WAIT_MS` otherwise, backs a network error off by the
shorter `RETRY_DELAY_MS`, retries with a decremented budget in every case,
and after exhausting the `MAX_RETRIES` budget surfaces the failure to the
caller (the parsed 429 body for rate limits, a rethrown exception for network
errors).  The presence endpoint inherits exactly this wait/fetch schedule —
the logic lives in the shared caller, not per endpoint. -/
theorem C6_shared_retry_and_backoff :
    (∀ (T : Type) (retries : Nat), retries > 0 →
      ∀ (s : Nat) (body : T) (rest : List (FetchResult T)),
        slackApiCall retries (.rateLimited (some s) body :: rest) =
          ⟨(slackApiCall (retries - 1) rest).outcome,
           s * 1000 :: (slackApiCall (retries - 1) rest).waits,
           (slackApiCall (retries - 1) rest).fetches + 1,
           (slackApiCall (retries - 1) rest).rest⟩) ∧
    (∀ (T : Type) (retries : Nat), retries > 0 →
      ∀ (body : T) (rest : List (FetchResult T)),
        slackApiCall retries (.rateLimited none body :: rest) =
          ⟨(slackApiCall (retries - 1) rest).outcome,
           RATE_LIMIT_DEFAULT_WAIT_MS :: (slackApiCall (retries - 1) rest).waits,
           (slackApiCall (retries - 1) rest).fetches + 1,
           (slackApiCall (retries - 1) rest).rest⟩) ∧
    (∀ (T : Type) (retries : Nat), retries > 0 →
      ∀ (rest : List (FetchResult T)),
        slackApiCall retries (.netError :: rest) =
          ⟨(slackApiCall (retries - 1) rest).outcome,
           RETRY_DELAY_MS :: (slackApiCall (retries - 1) rest).waits,
           (slackApiCall (retries - 1) rest).fetches + 1,
           (slackApiCall (retries - 1) rest).rest⟩) ∧
    (∀ (T : Type),
        slackApiCall MAX_RETRIES (List.replicate (MAX_RETRIES + 1) (.netError : FetchResult T)) =
          ⟨.thrown, List.replicate MAX_RETRIES RETRY_DELAY_MS, MAX_RETRIES + 1, []⟩) ∧
    (∀ (T : Type) (body : T),
        slackApiCall MAX_RETRIES (List.replicate (MAX_RETRIES + 1) (.rateLimited none body)) =
          ⟨.ok body, List.replicate MAX_RETRIES RATE_LIMIT_DEFAULT_WAIT_MS, MAX_RETRIES + 1, []⟩) ∧
    (∀ (trace : List (FetchResult PresenceBody)),
        (getUserPresence trace).waits = (slackApiCall MAX_RETRIES trace).waits ∧
        (getUserPresence trace).fetches = (slackApiCall MAX_RETRIES trace).fetches) := by
  refine ⟨?_, ?_, ?_, ?_, ?_, ?_⟩
  · intro T retries hr s body rest
    simp [slackApiCall, hr]
  · intro T retries hr body rest
    simp [slackApiCall, hr]
  · intro T retries hr rest
    simp [slackApiCall, hr]
  · intro T
    rfl
  · intro T body
    rfl
  · intro trace
    unfold getUserPresence
    cases h : (slackApiCall MAX_RETRIES trace).outcome with
    | ok data => by_cases hd : data.ok <;> simp [h, hd]
    | thrown => simp [h]
    | traceEnded => simp [h]

/-- Witness for C6: the hypothesis-bearing conjuncts applied with a positive
retry budget at concrete traces. -/
theorem C6_shared_retry_and_backoff_witness :
    ((3 : Nat) > 0 ∧
      slackApiCall 3 (.rateLimited (some 7) () :: []) =
        ⟨(slackApiCall 2 ([] : List (FetchResult Unit))).outcome,
         7 * 1000 :: (slackApiCall 2 ([] : List (FetchResult Unit))).waits,
         (slackApiCall 2 ([] : List (FetchResult Unit))).fetches + 1,
         (slackApiCall 2 ([] : List (FetchResult Unit))).rest⟩) ∧
    (slackApiCall 3 (.rateLimited none () :: []) =
        ⟨(slackApiCall 2 ([] : List (FetchResult Unit))).outcome,
         RATE_LIMIT_DEFAULT_WAIT_MS :: (slackApiCall 2 ([] : List (FetchResult Unit))).waits,
         (slackApiCall 2 ([] : List (FetchResult Unit))).fetches + 1,
         (slackApiCall 2 ([] : List (FetchResult Unit))).rest⟩) ∧
    (slackApiCall 3 (.netError :: ([] : List (FetchResult Unit))) =
        ⟨(slackApiCall 2 ([] : List (FetchResult Unit))).outcome,
         RETRY_DELAY_MS :: (slackApiCall 2 ([] : List (FetchResult Unit))).waits,
         (slackApiCall 2 ([] : List (FetchResult Unit))).fetches + 1,
         (slackApiCall 2 ([] : List (FetchResult Unit))).rest⟩) :=
  ⟨⟨by decide, C6_shared_retry_and_backoff.1 Unit 3 (by decide) 7 () []⟩,
   C6_shared_retry_and_backoff.2.1 Unit 3 (by decide) () [],
   C6_shared_retry_and_backoff.2.2.1 Unit 3 (by decide) []⟩

/-- C8: `getGuests` paginates until no (non-empty) continuation cursor is
returned, with no page-count cap: on a trace of `n` successful pages whose
cursors chain exactly through the list, it returns the concatenation of every
page's members filtered to non-deleted, non-bot, guest-tier accounts. -/
theorem C8_pagination_aggregates_all_pages (pages : List UsersListBody)
    (hne : pages ≠ [])
    (hok : ∀ p ∈ pages, p.ok = true)
    (hchain : pagesChain pages = true) :
    getGuests (pages.map .success) =
      .ok ((pages.map (fun p => p.members.filter guestFilter)).flatten) := by
  induction pages with
  | nil => exact absurd rfl hne
  | cons p ps ih =>
      have hpok : p.ok = true := hok p (List.mem_cons_self p ps)
      cases ps with
      | nil =>
          have hnone : normCursor p = none := by
            simpa [pagesChain, Option.isNone_iff_eq_none] using hchain
          unfold getGuests
          simp [slackApiCall, hpok, hnone]
      | cons q qs =>
          have hparts : (normCursor p).isSome = true ∧ pagesChain (q :: qs) = true := by
            simpa [pagesChain, Bool.and_eq_true] using hchain
          obtain ⟨c, hc⟩ := Option.isSome_iff_exists.mp hparts.1
          have ih' := ih (List.cons_ne_nil q qs)
            (fun x hx => hok x (List.mem_cons_of_mem p hx)) hparts.2
          simp only [List.map_cons] at ih'
          unfold getGuests
          simp only [List.map_cons]
          simp [slackApiCall, hpok, hc, ih', Except.map]

set_option maxRecDepth 4000 in
/-- Witness for C8: 500 guests spread over 5 pages of 100, all pages ok,
cursors chaining through all five pages — all 500 are returned. -/
theorem C8_pagination_aggregates_all_pages_witness :
    ((List.replicate 4 (⟨true, List.replicate 100 ⟨"G", false, false, true, false, none⟩, some ("c")⟩ : UsersListBody) ++
        [(⟨true, List.replicate 100 ⟨"G", false, false, true, false, none⟩, none⟩ : UsersListBody)]) ≠ [] ∧
      (∀ p ∈ (List.replicate 4 (⟨true, List.replicate 100 ⟨"G", false, false, true, false, none⟩, some ("c")⟩ : UsersListBody) ++
        [(⟨true, List.replicate 100 ⟨"G", false, false, true, false, none⟩, none⟩ : UsersListBody)]), p.ok = true) ∧
      pagesChain (List.replicate 4 (⟨true, List.replicate 100 ⟨"G", false, false, true, false, none⟩, some ("c")⟩ : UsersListBody) ++
        [(⟨true, List.replicate 100 ⟨"G", false, false, true, false, none⟩, none⟩ : UsersListBody)]) = true) ∧
    getGuests ((List.replicate 4 (⟨true, List.replicate 100 ⟨"G", false, false, true, false, none⟩, some ("c")⟩ : UsersListBody) ++
        [(⟨true, List.replicate 100 ⟨"G", false, false, true, false, none⟩, none⟩ : UsersListBody)]).map .success) =
      .ok (((List.replicate 4 (⟨true, List.replicate 100 ⟨"G", false, false, true, false, none⟩, some ("c")⟩ : UsersListBody) ++
        [(⟨true, List.replicate 100 ⟨"G", false, false, true, false, none⟩, none⟩ : UsersListBody)]).map
          (fun p => p.members.filter guestFilter)).flatten) ∧
    ((List.replicate 4 (⟨true, List.replicate 100 ⟨"G", false, false, true, false, none⟩, some ("c")⟩ : UsersListBody) ++
        [(⟨true, List.replicate 100 ⟨"G", false, false, true, false, none⟩, none⟩ : UsersListBody)]).map
          (fun p => p.members.filter guestFilter)).flatten.length = 500 :=
  ⟨⟨by decide, by decide, by decide⟩,
   C8_pagination_aggregates_all_pages _ (by decide) (by decide) (by decide),
   by decide⟩

/-- C9 counterexample: the claim says `getPresence` fails soft on *any*
upstream error, but four consecutive network errors exhaust the retry budget
and `getUserPresence` propagates the thrown error instead of returning
`'away'`. -/
theorem C9_network_exhaustion_propagates :
    (getUserPresence (List.replicate 4 (.netError : FetchResult PresenceBody))).outcome =
      .thrown ∧
    (ApiOutcome.thrown : ApiOutcome Presence) ≠ .ok .away := by
  exact ⟨rfl, by decide⟩

/-- C9 (amended): `getUserPresence` fails soft on every upstream *API-level*
failure — whenever the underlying `slackApiCall` returns a response body with
`ok = false` (including the parsed body of a final 429 after rate-limit
retries are exhausted), the result is `'away'`, not a propagated error.  Only
a network error that exhausts the retry budget escapes as a thrown
exception. -/
theorem C9_presence_fails_soft_on_api_errors
    (trace : List (FetchResult PresenceBody)) (body : PresenceBody)
    (hok : (slackApiCall MAX_RETRIES trace).outcome = .ok body)
    (hfail : body.ok = false) :
    (getUserPresence trace).outcome = .ok .away := by
  unfold getUserPresence
  simp [hok, hfail]

/-- Witness for C9's amended theorem: a trace of four 429s exhausts the
retry budget; the final 429 body has `ok = false` and the caller gets
`'away'`. -/
theorem C9_presence_fails_soft_on_api_errors_witness :
    (slackApiCall MAX_RETRIES
        (List.replicate 4 (.rateLimited none ⟨false, .active⟩ : FetchResult PresenceBody))).outcome =
      .ok ⟨false, .active⟩ ∧
    (⟨false, .active⟩ : PresenceBody).ok = false ∧
    (getUserPresence
        (List.replicate 4 (.rateLimited none ⟨false, .active⟩ : FetchResult PresenceBody))).outcome =
      .ok .away :=
  ⟨rfl, rfl, C9_presence_fails_soft_on_api_errors _ ⟨false, .active⟩ rfl rfl⟩

/-- C7: with unchanged upstream data (same scored guest list), re-running the
per-workspace audit persistence yields the identical `guest_audits` row set —
the flagged records are upserted on the natural key `(workspace_id,
slack_user_id)` and now-active guests deleted, so the step is idempotent and
preserves the at-most-one-row-per-key invariant. -/
theorem C7_audit_persistence_idempotent (workspaceId : String) (cost : ℚ)
    (scored : List ScoredGuest) (tbl : List GuestAuditRow)
    (hids : (scored.map (fun sg => sg.guest.id)).Nodup)
    (htbl : nodupKeys tbl) :
    nodupKeys (auditPersist workspaceId cost scored tbl) ∧
    auditPersist workspaceId cost scored (auditPersist workspaceId cost scored tbl) =
      auditPersist workspaceId cost scored tbl := by
  have hinactIds : ((scored.filter (fun sg => sg.score < MIN_ACTIVE_SCORE)).map
      (fun sg => sg.guest.id)).Nodup :=
    hids.sublist ((List.filter_sublist scored).map (fun sg => sg.guest.id))
  have hkeysrecs : ((flagRecords workspaceId cost
      (scored.filter (fun sg => sg.score < MIN_ACTIVE_SCORE))).map auditKey).Nodup := by
    have heq : (flagRecords workspaceId cost
        (scored.filter (fun sg => sg.score < MIN_ACTIVE_SCORE))).map auditKey =
        ((scored.filter (fun sg => sg.score < MIN_ACTIVE_SCORE)).map
          (fun sg => sg.guest.id)).map (fun i => (workspaceId, i)) := by
      unfold flagRecords
      rw [List.map_map, List.map_map]
      rfl
    rw [heq]
    exact hinactIds.map (fun a b h => by simpa using h)
  have hsafe : ∀ rec ∈ flagRecords workspaceId cost
      (scored.filter (fun sg => sg.score < MIN_ACTIVE_SCORE)),
      ((scored.filter (fun sg => sg.score ≥ MIN_ACTIVE_SCORE)).map
        (fun sg => sg.guest.id)).contains rec.slack_user_id = false := by
    intro rec hrec
    obtain ⟨sg, hsg, rfl⟩ := List.mem_map.mp hrec
    by_contra hcon
    rw [Bool.not_eq_false] at hcon
    have hmem : sg.guest.id ∈ (scored.filter (fun sg => sg.score ≥ MIN_ACTIVE_SCORE)).map
        (fun sg => sg.guest.id) := by
      simpa using hcon
    obtain ⟨sg', hsg', hid⟩ := List.mem_map.mp hmem
    have hs : sg ∈ scored := List.mem_of_mem_filter hsg
    have hs' : sg' ∈ scored := List.mem_of_mem_filter hsg'
    have heq : sg' = sg := List.inj_on_of_nodup_map hids hs' hs hid
    have hlt := of_decide_eq_true (List.mem_filter.mp hsg).2
    have hge := of_decide_eq_true (List.mem_filter.mp hsg').2
    rw [heq] at hge
    exact absurd hlt (not_lt.mpr hge)
  exact clear_upsert_nodup_and_idem workspaceId
    ((scored.filter (fun sg => sg.score ≥ MIN_ACTIVE_SCORE)).map (fun sg => sg.guest.id))
    (flagRecords workspaceId cost (scored.filter (fun sg => sg.score < MIN_ACTIVE_SCORE)))
    tbl htbl hkeysrecs hsafe

/-- Witness for C7: one inactive and one active guest upserted into an empty
table, run twice. -/
theorem C7_audit_persistence_idempotent_witness :
    (([⟨⟨"A", false, false, true, false, none⟩, 0, "profile_presence_message_check", 1, 1⟩,
       ⟨⟨"B", false, false, true, false, some 200⟩, 1, "profile_check", 0, 0⟩] :
        List ScoredGuest).map (fun sg => sg.guest.id)).Nodup ∧
    (([] : List GuestAuditRow).map auditKey).Nodup ∧
    (nodupKeys (auditPersist ("W1") 15
        [⟨⟨"A", false, false, true, false, none⟩, 0, "profile_presence_message_check", 1, 1⟩,
         ⟨⟨"B", false, false, true, false, some 200⟩, 1, "profile_check", 0, 0⟩] []) ∧
      auditPersist ("W1") 15
        [⟨⟨"A", false, false, true, false, none⟩, 0, "profile_presence_message_check", 1, 1⟩,
         ⟨⟨"B", false, false, true, false, some 200⟩, 1, "profile_check", 0, 0⟩]
        (auditPersist ("W1") 15
          [⟨⟨"A", false, false, true, false, none⟩, 0, "profile_presence_message_check", 1, 1⟩,
           ⟨⟨"B", false, false, true, false, some 200⟩, 1, "profile_check", 0, 0⟩] []) =
      auditPersist ("W1") 15
        [⟨⟨"A", false, false, true, false, none⟩, 0, "profile_presence_message_check", 1, 1⟩,
         ⟨⟨"B", false, false, true, false, some 200⟩, 1, "profile_check", 0, 0⟩] []) :=
  ⟨by decide, by decide,
    C7_audit_persistence_idempotent ("W1") 15
      [⟨⟨"A", false, false, true, false, none⟩, 0, "profile_presence_message_check", 1, 1⟩,
       ⟨⟨"B", false, false, true, false, some 200⟩, 1, "profile_check", 0, 0⟩] []
      (by decide) (by unfold nodupKeys; decide)⟩

/-- C10 (implicit): tenant selection for the audit filters only on the
subscription status (`active` or `trialing`) and never consults
`workspaces.is_active` — a workspace soft-deleted by `handleAppUninstalled`
(`is_active = false`, `refresh_token` cleared) whose subscription row still
has an eligible status is still returned by `fetchActiveWorkspaces`. -/
theorem C10_uninstalled_workspace_still_selected
    (now : Int) (workspaces : List Workspace) (subs : List SubscriptionRow)
    (w : Workspace) (s : SubscriptionRow)
    (hnodup : (workspaces.map (fun x => x.id)).Nodup)
    (hw : w ∈ workspaces) (hs : s ∈ subs)
    (hlink : s.workspace_id = w.id)
    (hstatus : s.status = "active" ∨ s.status = "trialing") :
    ({ w with refresh_token := none, is_active := false, uninstalled_at := some now } : Workspace) ∈
      fetchActiveWorkspaces (handleAppUninstalled now w.id workspaces) subs ∧
    ({ w with refresh_token := none, is_active := false, uninstalled_at := some now } : Workspace).is_active = false := by
  refine ⟨?_, rfl⟩
  have hw' : ({ w with refresh_token := none, is_active := false, uninstalled_at := some now } : Workspace) ∈
      handleAppUninstalled now w.id workspaces :=
    List.mem_map.mpr ⟨w, hw, by simp [handleAppUninstalled]⟩
  have hids : (handleAppUninstalled now w.id workspaces).map (fun x => x.id) =
      workspaces.map (fun x => x.id) := by
    unfold handleAppUninstalled
    rw [List.map_map]
    refine List.map_congr_left (fun x _ => ?_)
    by_cases h : x.id = w.id
    · simp [h]
    · simp [h]
  have hnodup' : ((handleAppUninstalled now w.id workspaces).map (fun x => x.id)).Nodup := by
    rw [hids]; exact hnodup
  have hfilter : s ∈ subs.filter (fun x => x.status = "active" || x.status = "trialing") := by
    refine List.mem_filter.mpr ⟨hs, ?_⟩
    rcases hstatus with h | h <;> simp [h]
  have hex : ∃ x ∈ handleAppUninstalled now w.id workspaces,
      (fun y => decide (y.id = s.workspace_id)) x = true :=
    ⟨_, hw', by simp [hlink]⟩
  obtain ⟨y, hy⟩ := Option.isSome_iff_exists.mp (List.find?_isSome.mpr hex)
  have hymem : y ∈ handleAppUninstalled now w.id workspaces := List.mem_of_find?_eq_some hy
  have hyid : y.id = s.workspace_id := by
    have h1 := List.find?_some hy
    simpa using h1
  have hyeq : y = { w with refresh_token := none, is_active := false, uninstalled_at := some now } := by
    refine List.inj_on_of_nodup_map hnodup' hymem hw' ?_
    show y.id = w.id
    rw [hyid, hlink]
  unfold fetchActiveWorkspaces
  refine List.mem_filterMap.mpr ⟨s, hfilter, ?_⟩
  rw [hy, hyeq]

/-- Witness for C10: one workspace, one active subscription row, uninstall
then select. -/
theorem C10_uninstalled_workspace_still_selected_witness :
    (([⟨"W1", some ("rt"), true, none⟩] : List Workspace).map (fun x => x.id)).Nodup ∧
    (⟨"W1", some ("rt"), true, none⟩ : Workspace) ∈ ([⟨"W1", some ("rt"), true, none⟩] : List Workspace) ∧
    (⟨"W1", some ("cus"), some ("sub"), .growth, "active"⟩ : SubscriptionRow) ∈
      ([⟨"W1", some ("cus"), some ("sub"), .growth, "active"⟩] : List SubscriptionRow) ∧
    ((⟨"W1", none, false, some 5⟩ : Workspace) ∈
      fetchActiveWorkspaces
        (handleAppUninstalled 5 "W1" [⟨"W1", some ("rt"), true, none⟩])
        [⟨"W1", some ("cus"), some ("sub"), .growth, "active"⟩] ∧
      (⟨"W1", none, false, some 5⟩ : Workspace).is_active = false) :=
  ⟨by decide, by decide, by decide,
    C10_uninstalled_workspace_still_selected 5 [⟨"W1", some ("rt"), true, none⟩]
      [⟨"W1", some ("cus"), some ("sub"), .growth, "active"⟩]
      ⟨"W1", some ("rt"), true, none⟩ ⟨"W1", some ("cus"), some ("sub"), .growth, "active"⟩
      (by decide) (by decide) (by decide) (by decide) (Or.inl rfl)⟩

end Sentinel
